import Mathlib

/-!
Verification of the Smart Maintenance prediction pipeline.

Shallow embedding of the two Streamlit front-ends:
  * `modern_app.py`  — bounded-numeric inputs, structured pipeline
    (label mapping, probability-based confidence, recommendations, risk score);
  * `streamlit_app.py` — free-text inputs with placeholder/empty validation.

Numeric sensor readings and probabilities are modelled as rationals (`ℚ`);
none of the verified properties depend on floating-point rounding.
The opaque pickled artifacts (classifier, scaler) are modelled as records of
functions; Python `float()` parsing is an oracle parameter
`parse : String → Option ℚ` (`none` = `ValueError`).
-/

namespace SmartMaintenance

/-- The six-field feature record, in the order both scripts assemble it:
temperature, vibration, pressure, inspection duration, downtime cost,
technician availability. -/
structure FeatureVector where
  temperature : ℚ
  vibration : ℚ
  pressure : ℚ
  inspection_duration : ℚ
  downtime_cost : ℚ
  technician_availability : ℚ
deriving Repr, DecidableEq

/-- Source `modern_app.py` line 325 / `streamlit_app.py` lines 37-38:
`input_data = np.array([[temp, vibration, pressure, inspection, downtime, technician]])`
— the single row of that 2-D array. -/
def input_data (fv : FeatureVector) : List ℚ :=
  [fv.temperature, fv.vibration, fv.pressure,
   fv.inspection_duration, fv.downtime_cost, fv.technician_availability]

/-- The raw output of `model.predict(...)[0]`: either an `int`/`np.integer`
class code or a non-integer (string) code (`modern_app.py` line 332 branches
on `isinstance(prediction_raw, (int, np.integer))`). -/
inductive ClassCode where
  | intCode (n : ℤ)
  | strCode (s : String)
deriving Repr, DecidableEq

/-- Source `modern_app.py` line 333:
`prediction_map = {0: 'Low', 1: 'Medium', 2: 'High'}`, as an association
list. -/
def prediction_map : List (ℤ × String) := [(0, "Low"), (1, "Medium"), (2, "High")]

/-- Python `dict.get(key, default)` over an association list. -/
def dictGet (d : List (ℤ × String)) (k : ℤ) (default : String) : String :=
  match d.find? (fun p => p.1 == k) with
  | some p => p.2
  | none => default

/-- Source `modern_app.py` lines 331-336: an integer code goes through
`prediction_map.get(prediction_raw, 'Medium')`; otherwise
`prediction = str(prediction_raw)`, which for a string code is the code
itself. -/
def labelOfCode : ClassCode → String
  | .intCode n => dictGet prediction_map n ("Medium")
  | .strCode s => s

/-- Python `str(...)` of the raw class code, as displayed by
`streamlit_app.py` line 46 (no integer-to-label mapping in that variant). -/
def strOfCode : ClassCode → String
  | .intCode n => toString n
  | .strCode s => s

/-- The classifier artifact: `predict` on a (scaled) row yields a class code;
`predict_proba` yields the probability row `predict_proba(...)[0]`, with
`none` standing for "capability absent or the call raised" (the bare
`except` at `modern_app.py` line 342 catches either). -/
structure ModelArtifact where
  predict : List ℚ → ClassCode
  predict_proba : List ℚ → Option (List ℚ)

/-- The feature-scaler artifact: `transform` maps the input row to a scaled
row. -/
structure ScalerArtifact where
  transform : List ℚ → List ℚ

/-- Python `max` of a nonempty list (head-seeded fold). -/
def listMax (p : ℚ) (ps : List ℚ) : ℚ := ps.foldl max p

/-- Source `modern_app.py` lines 338-343:
`try: probabilities = model.predict_proba(input_scaled)[0]; confidence = max(probabilities) * 100`
`except: confidence = 85`.
Here `none` (absent capability / raise) and the empty row (where Python
`max` raises, caught by the same bare `except`) both fall back to 85. -/
def confidenceOf : Option (List ℚ) → ℚ
  | some (p :: ps) => listMax p ps * 100
  | some [] => 85
  | none => 85

/-- The result rendered by the modern variant: priority label plus
confidence percentage. -/
structure PredictionResult where
  label : String
  confidence : ℚ
deriving Repr, DecidableEq

/-- The outcome of deserializing `model.pkl` / `scaler.pkl`: success yields
both objects, failure is any raised exception (message abstracted). -/
inductive LoadResult where
  | ok (m : ModelArtifact) (s : ScalerArtifact)
  | err (e : String)

/-- Process-wide artifact state after loading. In Python this is the triple
`(model, scaler, MODEL_LOADED)` where `MODEL_LOADED = True` always comes
with both objects non-`None` and `MODEL_LOADED = False` with both `None`;
the sum type carries exactly that invariant. -/
inductive Artifacts where
  | ready (m : ModelArtifact) (s : ScalerArtifact)
  | demo

/-- Source `modern_app.py` lines 149-157 (`load_models`): return
`(model, scaler, True)` on success, `(None, None, False)` on any exception. -/
def load_models : LoadResult → Artifacts
  | .ok m s => .ready m s
  | .err _ => .demo

/-- The exposed `model` after loading (first component of the triple). -/
def modelOf : Artifacts → Option ModelArtifact
  | .ready m _ => some m
  | .demo => none

/-- The exposed `scaler` after loading (second component of the triple). -/
def scalerOf : Artifacts → Option ScalerArtifact
  | .ready _ s => some s
  | .demo => none

/-- The `MODEL_LOADED` flag (third component of the triple); also the flag
set by the module-level `try`/`except` in `streamlit_app.py` lines 6-14. -/
def MODEL_LOADED : Artifacts → Bool
  | .ready _ _ => true
  | .demo => false

/-- The candidate demo labels of
`np.random.choice(['Low', 'Medium', 'High'])`. -/
def demoLabels : List String := ["Low", "Medium", "High"]

/-- The label selected by `np.random.choice(['Low', 'Medium', 'High'])`
for a given random index; the drawn index is a parameter of the embedding. -/
def demoLabel : Fin 3 → String
  | 0 => "Low"
  | 1 => "Medium"
  | 2 => "High"

/-- Observable calls into the opaque artifacts, recorded in order. -/
inductive Call where
  | transform (v : List ℚ)
  | predict (v : List ℚ)
deriving Repr, DecidableEq

/-- Source `modern_app.py` lines 321-346: the prediction pipeline run on a
button press, instrumented with the trace of `scaler.transform` /
`model.predict` calls. Loaded path: scale, predict, map the code to a
label, compute the confidence; demo path: random label, confidence 75, no
artifact calls. -/
def modern_run (arts : Artifacts) (i : Fin 3) (fv : FeatureVector) :
    PredictionResult × List Call :=
  match arts with
  | .ready m s =>
      let input_scaled := s.transform (input_data fv)
      let prediction_raw := m.predict input_scaled
      let prediction := labelOfCode prediction_raw
      let confidence := confidenceOf (m.predict_proba input_scaled)
      (⟨prediction, confidence⟩,
       [Call.transform (input_data fv), Call.predict input_scaled])
  | .demo => (⟨demoLabel i, 75⟩, [])

/-- Source `modern_app.py` lines 351-355: the fixed recommendation table. -/
def recommendations : List (String × String) :=
  [("High", "Immediate action required"),
   ("Medium", "Schedule maintenance"),
   ("Low", "Monitor regularly")]

/-- Source `modern_app.py` line 361:
`recommendations.get(prediction, 'Monitor regularly')`. -/
def recommendationOf (prediction : String) : String :=
  match recommendations.find? (fun p => p.1 == prediction) with
  | some p => p.2
  | none => "Monitor regularly"

/-- Source `modern_app.py` line 385:
`risk_score = 85 if str(prediction) == "High" else 55 if str(prediction) == "Medium" else 25`. -/
def risk_score (prediction : String) : ℕ :=
  if prediction = "High" then 85 else if prediction = "Medium" then 55 else 25

/-- The six free-text fields of `streamlit_app.py` lines 23-28, in source
order. -/
structure RawFields where
  temp : String
  vibration : String
  pressure : String
  inspection : String
  downtime : String
  technician : String
deriving Repr, DecidableEq

/-- The default (placeholder) texts of the six `st.text_input` controls,
in the same order. -/
def streamlit_placeholders : List String :=
  ["e.g., 75", "e.g., 1.5", "e.g., 5.0", "e.g., 30", "e.g., 1000", "e.g., 85"]

/-- Source `streamlit_app.py` line 33:
`inputs = [temp, vibration, pressure, inspection, downtime, technician]`. -/
def streamlit_inputs (r : RawFields) : List String :=
  [r.temp, r.vibration, r.pressure, r.inspection, r.downtime, r.technician]

/-- Python `str.isspace` characters as relevant to ASCII field text:
space, tab, newline, carriage return, vertical tab, form feed. -/
def pyIsSpace (c : Char) : Bool :=
  c == ' ' || c == '\t' || c == '\n' || c == '\r' ||
  c == Char.ofNat 11 || c == Char.ofNat 12

/-- Python `str.strip()`: drop leading and trailing whitespace. -/
def pyStrip (s : String) : String :=
  String.mk (((s.data.dropWhile pyIsSpace).reverse.dropWhile pyIsSpace).reverse)

/-- Python `str.startswith(pre)`: prefix test on the character sequence. -/
def pyStartsWith (s pre : String) : Bool :=
  pre.data.isPrefixOf s.data

/-- The per-field test of `streamlit_app.py` line 34:
`i.strip().startswith("e.g.") or i.strip() == ""`. -/
def rejectField (i : String) : Bool :=
  pyStartsWith (pyStrip i) ("e.g.") || pyStrip i == ""

/-- Source `streamlit_app.py` line 34: `any(... for i in inputs)`. -/
def streamlit_reject (r : RawFields) : Bool :=
  (streamlit_inputs r).any rejectField

/-- What the free-text variant renders for one button press. The script
never computes a confidence; the `confidence` field records the confidence
displayed with the result (always `none` in this variant). -/
inductive StreamlitOutcome where
  | validationError (msg : String)
  | runtimeError
  | success (label : String) (confidence : Option ℚ)
deriving Repr, DecidableEq

/-- Source `streamlit_app.py` lines 31-59: validate, parse the six fields
with `float(...)` (first failure raises to the top-level `except`, giving
`runtimeError`), then either scale-and-predict or draw the demo label.
Instrumented with the artifact-call trace. -/
def streamlit_run (parse : String → Option ℚ) (arts : Artifacts) (i : Fin 3)
    (r : RawFields) : StreamlitOutcome × List Call :=
  if streamlit_reject r then
    (.validationError ("❗ Please fill in all the input fields correctly."), [])
  else
    match parse r.temp, parse r.vibration, parse r.pressure,
          parse r.inspection, parse r.downtime, parse r.technician with
    | some t, some vb, some p, some ins, some d, some tech =>
        let input_data := [t, vb, p, ins, d, tech]
        match arts with
        | .ready m s =>
            let input_scaled := s.transform input_data
            let prediction := m.predict input_scaled
            (.success (strOfCode prediction) none,
             [Call.transform input_data, Call.predict input_scaled])
        | .demo => (.success (demoLabel i) none, [])
    | _, _, _, _, _, _ => (.runtimeError, [])

/-! ### Helper lemmas -/

lemma dictGet_prediction_map_default (n : ℤ) (h0 : n ≠ 0) (h1 : n ≠ 1) (h2 : n ≠ 2) :
    dictGet prediction_map n ("Medium") = "Medium" := by
  have b0 : ((0:ℤ) == n) = false := beq_eq_false_iff_ne.mpr (Ne.symm h0)
  have b1 : ((1:ℤ) == n) = false := beq_eq_false_iff_ne.mpr (Ne.symm h1)
  have b2 : ((2:ℤ) == n) = false := beq_eq_false_iff_ne.mpr (Ne.symm h2)
  simp [dictGet, prediction_map, List.find?, b0, b1, b2]

lemma labelOfCode_int_default (n : ℤ) (h0 : n ≠ 0) (h1 : n ≠ 1) (h2 : n ≠ 2) :
    labelOfCode (.intCode n) = "Medium" :=
  dictGet_prediction_map_default n h0 h1 h2

lemma labelOfCode_int_mem (n : ℤ) : labelOfCode (.intCode n) ∈ demoLabels := by
  by_cases h0 : n = 0
  · subst h0; decide
  by_cases h1 : n = 1
  · subst h1; decide
  by_cases h2 : n = 2
  · subst h2; decide
  rw [labelOfCode_int_default n h0 h1 h2]; decide

lemma recommendationOf_default (l : String) (h1 : l ≠ "High") (h2 : l ≠ "Medium")
    (h3 : l ≠ "Low") : recommendationOf l = "Monitor regularly" := by
  have b1 : ("High" == l) = false := beq_eq_false_iff_ne.mpr (Ne.symm h1)
  have b2 : ("Medium" == l) = false := beq_eq_false_iff_ne.mpr (Ne.symm h2)
  have b3 : ("Low" == l) = false := beq_eq_false_iff_ne.mpr (Ne.symm h3)
  simp [recommendationOf, recommendations, List.find?, b1, b2, b3]

lemma rejectField_of_empty_or_placeholder (f p : String)
    (hp : p ∈ streamlit_placeholders) (h : f = "" ∨ f = p) :
    rejectField f = true := by
  rcases h with h | h
  · subst h; decide
  · subst h
    fin_cases hp <;> decide

lemma streamlit_reject_of_field (r : RawFields) (f : String)
    (hf : f ∈ streamlit_inputs r) (hr : rejectField f = true) :
    streamlit_reject r = true := by
  rw [streamlit_reject, List.any_eq_true]
  exact ⟨f, hf, hr⟩

lemma listMax_bounds (p : ℚ) (ps : List ℚ)
    (h : ∀ q ∈ p :: ps, 0 ≤ q ∧ q ≤ 1) :
    0 ≤ listMax p ps ∧ listMax p ps ≤ 1 := by
  induction ps generalizing p with
  | nil => simpa [listMax] using h p (by simp)
  | cons q qs ih =>
      have hp := h p (by simp)
      have hq := h q (by simp)
      have hstep : ∀ x ∈ max p q :: qs, 0 ≤ x ∧ x ≤ 1 := by
        intro x hx
        rcases List.mem_cons.mp hx with hx | hx
        · subst hx
          exact ⟨le_max_of_le_left hp.1, max_le hp.2 hq.2⟩
        · exact h x (by simp [hx])
      have := ih (max p q) hstep
      simpa [listMax, List.foldl_cons] using this

lemma confidenceOf_bounds (o : Option (List ℚ))
    (h : ∀ ps, o = some ps → ∀ q ∈ ps, 0 ≤ q ∧ q ≤ 1) :
    0 ≤ confidenceOf o ∧ confidenceOf o ≤ 100 := by
  match o with
  | none => constructor <;> norm_num [confidenceOf]
  | some [] => constructor <;> norm_num [confidenceOf]
  | some (p :: ps) =>
      have hb := listMax_bounds p ps (h _ rfl)
      rw [confidenceOf]
      constructor
      · nlinarith [hb.1]
      · nlinarith [hb.2]

lemma demoLabel_mem : ∀ i : Fin 3, demoLabel i ∈ demoLabels := by decide

/-! ### Concrete fixtures for witnesses and counterexamples -/

/-- The spec's end-to-end scenario inputs:
temp 75, vibration 1.5, pressure 5.0, inspection 30, downtime 1000,
technician 85. -/
def testFV : FeatureVector := ⟨75, 3/2, 5, 30, 1000, 85⟩

/-- A stub classifier returning class code 2 with probability row
`[0.1, 0.1, 0.8]`. -/
def probModel : ModelArtifact :=
  ⟨fun _ => .intCode 2, fun _ => some [1/10, 1/10, 4/5]⟩

/-- A stub classifier returning class code 2 with no probability
capability. -/
def noProbModel : ModelArtifact := ⟨fun _ => .intCode 2, fun _ => none⟩

/-- A stub classifier returning the string class code "Critical". -/
def strModel : ModelArtifact := ⟨fun _ => .strCode ("Critical"), fun _ => none⟩

/-- The identity scaler stub. -/
def idScaler : ScalerArtifact := ⟨fun v => v⟩

/-- A six-field free-text form with the first field left at its
placeholder. -/
def rawPlaceholderTemp : RawFields := ⟨"e.g., 75", "1", "2", "3", "4", "5"⟩

/-- A validly filled six-field free-text form. -/
def rawValid : RawFields := ⟨"75", "1.5", "5.0", "30", "1000", "85"⟩

/-- A parse oracle mapping every string to 1. -/
def constParse : String → Option ℚ := fun _ => some 1

/-! ### Claims -/

/-- C1: the label mapping for model class codes is deterministic and total:
integer codes 0, 1, 2 map to "Low", "Medium", "High" respectively, every
other integer code defaults to "Medium", and a non-integer (string) class
code is used directly as the label. -/
theorem C1_label_mapping :
    labelOfCode (.intCode 0) = "Low" ∧
    labelOfCode (.intCode 1) = "Medium" ∧
    labelOfCode (.intCode 2) = "High" ∧
    (∀ n : ℤ, n ≠ 0 → n ≠ 1 → n ≠ 2 → labelOfCode (.intCode n) = "Medium") ∧
    (∀ s : String, labelOfCode (.strCode s) = s) :=
  ⟨by decide, by decide, by decide,
   fun n h0 h1 h2 => labelOfCode_int_default n h0 h1 h2,
   fun _ => rfl⟩

/-- Witness for C1 at the concrete unmapped code 7. -/
theorem C1_label_mapping_witness :
    labelOfCode (.intCode 7) = "Medium" :=
  C1_label_mapping.2.2.2.1 7 (by decide) (by decide) (by decide)

/-- C5: recommendation and risk score are pure functions of the label, with
the fixed values for "High", "Medium", "Low" and the default recommendation
"Monitor regularly" for any other label. -/
theorem C5_recommendation_risk :
    (recommendationOf ("High") = "Immediate action required" ∧ risk_score ("High") = 85) ∧
    (recommendationOf ("Medium") = "Schedule maintenance" ∧ risk_score ("Medium") = 55) ∧
    (recommendationOf ("Low") = "Monitor regularly" ∧ risk_score ("Low") = 25) ∧
    (∀ l : String, l ≠ "High" → l ≠ "Medium" → l ≠ "Low" →
      recommendationOf l = "Monitor regularly") :=
  ⟨⟨by decide, by decide⟩, ⟨by decide, by decide⟩, ⟨by decide, by decide⟩,
   fun l h1 h2 h3 => recommendationOf_default l h1 h2 h3⟩

/-- Witness for C5 at the concrete unknown label "Critical". -/
theorem C5_recommendation_risk_witness :
    recommendationOf ("Critical") = "Monitor regularly" :=
  C5_recommendation_risk.2.2.2 ("Critical") (by decide) (by decide) (by decide)

/-- C10: for every label, including labels outside {Low, Medium, High}, the
risk score lies in {25, 55, 85} — 85 exactly for "High", 55 exactly for
"Medium", 25 for every other label — and the recommendation simultaneously
defaults to "Monitor regularly" for unknown labels. -/
theorem C10_risk_score_total :
    ∀ label : String,
      (risk_score label = 25 ∨ risk_score label = 55 ∨ risk_score label = 85) ∧
      (label = "High" → risk_score label = 85) ∧
      (label = "Medium" → risk_score label = 55) ∧
      (label ≠ "High" → label ≠ "Medium" → risk_score label = 25) ∧
      (label ≠ "High" → label ≠ "Medium" → label ≠ "Low" →
        recommendationOf label = "Monitor regularly") := by
  intro label
  refine ⟨?_, ?_, ?_, ?_, fun h1 h2 h3 => recommendationOf_default label h1 h2 h3⟩ <;>
    by_cases h1 : label = "High" <;> by_cases h2 : label = "Medium" <;>
      simp [risk_score, h1, h2]

/-- Witness for C10 at the concrete stringified class code "2". -/
theorem C10_risk_score_total_witness :
    risk_score ("2") = 25 ∧ recommendationOf ("2") = "Monitor regularly" :=
  ⟨(C10_risk_score_total ("2")).2.2.2.1 (by decide) (by decide),
   (C10_risk_score_total ("2")).2.2.2.2 (by decide) (by decide) (by decide)⟩

/-- C9: the free-text rejection test is a prefix test after stripping
whitespace — a six-field form is rejected exactly when some field's
stripped text starts with "e.g." or is empty; in particular an input
beginning with "e.g." is rejected even when it equals no field's
placeholder, and a whitespace-only field is treated as empty. -/
theorem C9_placeholder_check_is_prefix_test :
    (∀ r : RawFields, streamlit_reject r = true ↔
      ∃ f ∈ streamlit_inputs r,
        (pyStartsWith (pyStrip f) ("e.g.") = true ∨ pyStrip f = "")) ∧
    rejectField ("e.g., 999") = true ∧
    ("e.g., 999" ∉ streamlit_placeholders) ∧
    rejectField (" \t ") = true ∧
    rejectField ("75") = false := by
  refine ⟨?_, by decide, by decide, by decide, by decide⟩
  intro r
  simp [streamlit_reject, List.any_eq_true, rejectField]

/-- C4: in the free-text variant, whenever some field is empty or equals its
own placeholder text, the run ends in the user-visible validation error,
with an empty artifact-call trace (so neither `scaler.transform` nor
`model.predict` is called) and no prediction result. -/
theorem C4_validation_blocks_predict (parse : String → Option ℚ)
    (arts : Artifacts) (i : Fin 3) (r : RawFields)
    (h : ∃ q ∈ List.zip (streamlit_inputs r) streamlit_placeholders,
          q.1 = "" ∨ q.1 = q.2) :
    streamlit_run parse arts i r =
      (.validationError ("❗ Please fill in all the input fields correctly."), []) := by
  obtain ⟨⟨f, p⟩, hq, hval⟩ := h
  obtain ⟨hf, hp⟩ := List.of_mem_zip hq
  have hr : streamlit_reject r = true :=
    streamlit_reject_of_field r f hf
      (rejectField_of_empty_or_placeholder f p hp hval)
  simp [streamlit_run, hr]

/-- Witness for C4: a form whose temperature field still holds its
placeholder is rejected without any artifact call. -/
theorem C4_validation_blocks_predict_witness :
    streamlit_run constParse .demo 0 rawPlaceholderTemp =
      (.validationError ("❗ Please fill in all the input fields correctly."), []) :=
  C4_validation_blocks_predict constParse .demo 0 rawPlaceholderTemp
    ⟨("e.g., 75", "e.g., 75"), by decide, Or.inr rfl⟩

/-- C6: with artifacts loaded, a successful nonempty probability row gives
confidence = (max probability) × 100, while an absent or raising
`predict_proba` gives the default confidence 85; in both cases the label is
the one already computed from `model.predict`. -/
theorem C6_confidence_from_probabilities (m : ModelArtifact)
    (s : ScalerArtifact) (i : Fin 3) (fv : FeatureVector) :
    (∀ p ps, m.predict_proba (s.transform (input_data fv)) = some (p :: ps) →
      (modern_run (.ready m s) i fv).1.confidence = listMax p ps * 100 ∧
      (modern_run (.ready m s) i fv).1.label =
        labelOfCode (m.predict (s.transform (input_data fv)))) ∧
    (m.predict_proba (s.transform (input_data fv)) = none →
      (modern_run (.ready m s) i fv).1.confidence = 85 ∧
      (modern_run (.ready m s) i fv).1.label =
        labelOfCode (m.predict (s.transform (input_data fv)))) := by
  constructor
  · intro p ps h
    constructor
    · simp [modern_run, confidenceOf, h]
    · rfl
  · intro h
    constructor
    · simp [modern_run, confidenceOf, h]
    · rfl

/-- Witness for C6: max of `[0.1, 0.1, 0.8]` gives confidence 80; the
probability-free stub falls back to 85. -/
theorem C6_confidence_from_probabilities_witness :
    (modern_run (.ready probModel idScaler) 0 testFV).1.confidence =
        listMax (1/10) [1/10, 4/5] * 100 ∧
    (modern_run (.ready noProbModel idScaler) 0 testFV).1.confidence = 85 :=
  ⟨((C6_confidence_from_probabilities probModel idScaler 0 testFV).1
      (1/10) [1/10, 4/5] rfl).1,
   ((C6_confidence_from_probabilities noProbModel idScaler 0 testFV).2 rfl).1⟩

/-- C7: any artifact-load failure is caught — the ready flag becomes false,
no artifact is exposed, and the pipeline still runs, producing the demo
result; on success both artifacts are exposed and the ready flag is true. -/
theorem C7_loader_failure_demo_mode :
    (∀ e : String,
      load_models (.err e) = .demo ∧
      MODEL_LOADED (load_models (.err e)) = false ∧
      modelOf (load_models (.err e)) = none ∧
      scalerOf (load_models (.err e)) = none ∧
      (∀ (i : Fin 3) (fv : FeatureVector),
        modern_run (load_models (.err e)) i fv = (⟨demoLabel i, 75⟩, []))) ∧
    (∀ m s,
      load_models (.ok m s) = .ready m s ∧
      MODEL_LOADED (load_models (.ok m s)) = true ∧
      modelOf (load_models (.ok m s)) = some m ∧
      scalerOf (load_models (.ok m s)) = some s) :=
  ⟨fun _ => ⟨rfl, rfl, rfl, rfl, fun _ _ => rfl⟩,
   fun _ _ => ⟨rfl, rfl, rfl, rfl⟩⟩

/-- C8: in both variants the row handed to the artifacts is exactly the six
input fields in the fixed order temperature, vibration, pressure,
inspection duration, downtime cost, technician availability — a single row
of length 6; `scaler.transform` receives that row and `model.predict`
receives its transform. -/
theorem C8_feature_vector_order :
    (∀ fv : FeatureVector,
      input_data fv = [fv.temperature, fv.vibration, fv.pressure,
        fv.inspection_duration, fv.downtime_cost, fv.technician_availability] ∧
      (input_data fv).length = 6) ∧
    (∀ m s (i : Fin 3) (fv : FeatureVector),
      (modern_run (.ready m s) i fv).2 =
        [Call.transform (input_data fv),
         Call.predict (s.transform (input_data fv))]) ∧
    (∀ (parse : String → Option ℚ) m s (i : Fin 3) (r : RawFields)
        (t vb p ins d tech : ℚ),
      streamlit_reject r = false →
      parse r.temp = some t → parse r.vibration = some vb →
      parse r.pressure = some p → parse r.inspection = some ins →
      parse r.downtime = some d → parse r.technician = some tech →
      (streamlit_run parse (.ready m s) i r).2 =
        [Call.transform [t, vb, p, ins, d, tech],
         Call.predict (s.transform [t, vb, p, ins, d, tech])]) := by
  refine ⟨fun fv => ⟨rfl, rfl⟩, fun m s i fv => rfl, ?_⟩
  intro parse m s i r t vb p ins d tech hr h1 h2 h3 h4 h5 h6
  simp [streamlit_run, hr, h1, h2, h3, h4, h5, h6]

/-- Witness for C8 on a concrete filled form and stub artifacts. -/
theorem C8_feature_vector_order_witness :
    (streamlit_run constParse (.ready probModel idScaler) 0 rawValid).2 =
      [Call.transform [1, 1, 1, 1, 1, 1],
       Call.predict (idScaler.transform [1, 1, 1, 1, 1, 1])] :=
  C8_feature_vector_order.2.2 constParse probModel idScaler 0 rawValid
    1 1 1 1 1 1 (by decide) rfl rfl rfl rfl rfl rfl

/-- Counterexample to C2: on a validly filled form in demo mode, the
free-text variant renders the demo label with no confidence at all — its
outcome is not the 75-confidence outcome the claim requires of both
variants. -/
theorem C2_counterexample :
    (streamlit_run constParse .demo 0 rawValid).1 = .success ("Low") none ∧
    StreamlitOutcome.success ("Low") none ≠ .success ("Low") (some 75) :=
  ⟨by decide, by decide⟩

/-- C2 amended: for every valid six-field input in demo mode, the modern
variant returns a label in {Low, Medium, High} with confidence exactly 75,
and the free-text variant returns a label in {Low, Medium, High} but
computes no confidence. -/
theorem C2_demo_mode_amended (i : Fin 3) (fv : FeatureVector)
    (parse : String → Option ℚ) (r : RawFields) (t vb p ins d tech : ℚ)
    (hr : streamlit_reject r = false)
    (h1 : parse r.temp = some t) (h2 : parse r.vibration = some vb)
    (h3 : parse r.pressure = some p) (h4 : parse r.inspection = some ins)
    (h5 : parse r.downtime = some d) (h6 : parse r.technician = some tech) :
    ((modern_run .demo i fv).1.label ∈ demoLabels ∧
     (modern_run .demo i fv).1.confidence = 75) ∧
    ((streamlit_run parse .demo i r).1 = .success (demoLabel i) none ∧
     demoLabel i ∈ demoLabels) := by
  refine ⟨⟨demoLabel_mem i, rfl⟩, ?_, demoLabel_mem i⟩
  simp [streamlit_run, hr, h1, h2, h3, h4, h5, h6]

/-- Witness for the amended C2 at the scenario inputs. -/
theorem C2_demo_mode_amended_witness :
    ((modern_run .demo 0 testFV).1.label ∈ demoLabels ∧
     (modern_run .demo 0 testFV).1.confidence = 75) ∧
    ((streamlit_run constParse .demo 0 rawValid).1 = .success (demoLabel 0) none ∧
     demoLabel 0 ∈ demoLabels) :=
  C2_demo_mode_amended 0 testFV constParse rawValid 1 1 1 1 1 1
    (by decide) rfl rfl rfl rfl rfl rfl

/-- Counterexample to C3: a model returning the string class code
"Critical" makes the loaded pipeline produce the label "Critical", which is
outside {Low, Medium, High}. -/
theorem C3_counterexample :
    (modern_run (.ready strModel idScaler) 0 testFV).1.label = "Critical" ∧
    ("Critical" ∉ demoLabels) :=
  ⟨rfl, by decide⟩

/-- C3 amended: the demo path and every integer class code yield a label in
{Low, Medium, High}, and the confidence lies in [0, 100] whenever every
returned probability lies in [0, 1] (the defaults 75 and 85 included); a
string class code, however, is used directly as the label and may lie
outside the set. -/
theorem C3_result_invariant_amended :
    (∀ (i : Fin 3) (fv : FeatureVector),
      (modern_run .demo i fv).1.label ∈ demoLabels ∧
      0 ≤ (modern_run .demo i fv).1.confidence ∧
      (modern_run .demo i fv).1.confidence ≤ 100) ∧
    (∀ m s (i : Fin 3) (fv : FeatureVector) (n : ℤ),
      m.predict (s.transform (input_data fv)) = .intCode n →
      (modern_run (.ready m s) i fv).1.label ∈ demoLabels) ∧
    (∀ m s (i : Fin 3) (fv : FeatureVector),
      (∀ ps, m.predict_proba (s.transform (input_data fv)) = some ps →
        ∀ q ∈ ps, 0 ≤ q ∧ q ≤ 1) →
      0 ≤ (modern_run (.ready m s) i fv).1.confidence ∧
      (modern_run (.ready m s) i fv).1.confidence ≤ 100) := by
  refine ⟨fun i fv => ⟨demoLabel_mem i, by norm_num [modern_run], by norm_num [modern_run]⟩,
    ?_, ?_⟩
  · intro m s i fv n h
    have hl : (modern_run (.ready m s) i fv).1.label =
        labelOfCode (m.predict (s.transform (input_data fv))) := rfl
    rw [hl, h]
    exact labelOfCode_int_mem n
  · intro m s i fv h
    have hc : (modern_run (.ready m s) i fv).1.confidence =
        confidenceOf (m.predict_proba (s.transform (input_data fv))) := rfl
    rw [hc]
    exact confidenceOf_bounds _ h

/-- Witness for the amended C3 with the class-code-2 stub and its valid
probability row. -/
theorem C3_result_invariant_amended_witness :
    (modern_run (.ready probModel idScaler) 0 testFV).1.label ∈ demoLabels ∧
    0 ≤ (modern_run (.ready probModel idScaler) 0 testFV).1.confidence ∧
    (modern_run (.ready probModel idScaler) 0 testFV).1.confidence ≤ 100 :=
  ⟨C3_result_invariant_amended.2.1 probModel idScaler 0 testFV 2 rfl,
   C3_result_invariant_amended.2.2 probModel idScaler 0 testFV (by
     intro ps hps
     injection hps with hps
     subst hps
     intro q hq
     fin_cases hq <;> constructor <;> norm_num)⟩

end SmartMaintenance
